import Mathlib

/-!
Shallow embedding of the moody-backend playlist-generation core
(`src/services/playlistService.ts` and the parts of
`src/services/spotifyService.ts` it calls), together with theorems settling
the specification claims.

Numbers are modelled as rationals (`ℚ`); JavaScript `Math.random()` values are
passed in explicitly as rational parameters/streams; external collaborators
(the Spotify API) are passed in as pure oracle functions, and every external
invocation is recorded in an explicit call log so that "performs no external
call" claims are expressible.
-/

/-- A `{min, max}` audio-feature range from the mood profile table
(`playlistService.ts` lines 8-69). -/
structure FeatureRange where
  min : ℚ
  max : ℚ
deriving DecidableEq

/-- The four named feature ranges of a mood profile
(`MoodMusicProfile.audioFeatures`). -/
structure AudioFeatureRanges where
  energy : FeatureRange
  valence : FeatureRange
  danceability : FeatureRange
  tempo : FeatureRange
deriving DecidableEq

/-- Embedding of `MoodMusicProfile` from `types`: genre list, feature ranges, keywords. -/
structure MoodMusicProfile where
  genres : List String
  audioFeatures : AudioFeatureRanges
  keywords : List String
deriving DecidableEq

/-- The `happy` entry of the mood profile table (`playlistService.ts` 9-18). -/
def happyProfile : MoodMusicProfile :=
  { genres := ["pop", "dance", "funk", "disco", "reggae"]
    audioFeatures :=
      { energy := ⟨6/10, 1⟩
        valence := ⟨6/10, 1⟩
        danceability := ⟨5/10, 1⟩
        tempo := ⟨100, 180⟩ }
    keywords := ["upbeat", "positive", "celebration", "sunshine", "party"] }

/-- The `sad` entry of the mood profile table (`playlistService.ts` 19-28). -/
def sadProfile : MoodMusicProfile :=
  { genres := ["indie", "alternative", "folk", "blues", "singer-songwriter"]
    audioFeatures :=
      { energy := ⟨0, 5/10⟩
        valence := ⟨0, 4/10⟩
        danceability := ⟨0, 5/10⟩
        tempo := ⟨60, 100⟩ }
    keywords := ["melancholy", "heartbreak", "rain", "alone", "emotional"] }

/-- The `energetic` entry of the mood profile table (`playlistService.ts` 29-38). -/
def energeticProfile : MoodMusicProfile :=
  { genres := ["rock", "electronic", "hip-hop", "punk", "metal"]
    audioFeatures :=
      { energy := ⟨7/10, 1⟩
        valence := ⟨4/10, 1⟩
        danceability := ⟨6/10, 1⟩
        tempo := ⟨120, 200⟩ }
    keywords := ["workout", "adrenaline", "power", "intense", "drive"] }

/-- The `calm` entry of the mood profile table (`playlistService.ts` 39-48). -/
def calmProfile : MoodMusicProfile :=
  { genres := ["ambient", "classical", "new-age", "lo-fi", "acoustic"]
    audioFeatures :=
      { energy := ⟨0, 4/10⟩
        valence := ⟨3/10, 7/10⟩
        danceability := ⟨0, 4/10⟩
        tempo := ⟨60, 100⟩ }
    keywords := ["peaceful", "meditation", "sleep", "nature", "zen"] }

/-- The `anxious` entry of the mood profile table (`playlistService.ts` 49-58). -/
def anxiousProfile : MoodMusicProfile :=
  { genres := ["indie-rock", "alternative", "electronic", "experimental"]
    audioFeatures :=
      { energy := ⟨3/10, 7/10⟩
        valence := ⟨2/10, 6/10⟩
        danceability := ⟨3/10, 7/10⟩
        tempo := ⟨80, 140⟩ }
    keywords := ["restless", "uncertainty", "tension", "introspective"] }

/-- The `nostalgic` entry of the mood profile table (`playlistService.ts` 59-68). -/
def nostalgicProfile : MoodMusicProfile :=
  { genres := ["oldies", "classic-rock", "soul", "jazz", "country"]
    audioFeatures :=
      { energy := ⟨2/10, 7/10⟩
        valence := ⟨3/10, 8/10⟩
        danceability := ⟨3/10, 7/10⟩
        tempo := ⟨70, 130⟩ }
    keywords := ["memories", "vintage", "throwback", "classic", "timeless"] }

/-- Lookup `this.moodProfiles[key]`: string-keyed lookup into the static mood profile
table; `none` models an absent key (`undefined` in JS). -/
def moodProfiles (key : String) : Option MoodMusicProfile :=
  if key = "happy" then some happyProfile
  else if key = "sad" then some sadProfile
  else if key = "energetic" then some energeticProfile
  else if key = "calm" then some calmProfile
  else if key = "anxious" then some anxiousProfile
  else if key = "nostalgic" then some nostalgicProfile
  else none

/-- Embedding of `MoodAnalysis` from `types` (the six per-emotion confidences, the overall
confidence scalar, and the raw input text). -/
structure MoodAnalysis where
  primaryEmotion : String
  happy : ℚ
  sad : ℚ
  energetic : ℚ
  calm : ℚ
  anxious : ℚ
  nostalgic : ℚ
  confidence : ℚ
  rawText : String

/-- The target feature set produced by `calculateTargetFeatures`
(`playlistService.ts` 157-162): all four scalars are always present. -/
structure TargetFeatureSet where
  energy : ℚ
  valence : ℚ
  danceability : ℚ
  tempo : ℚ
deriving DecidableEq

/-- Embedding of `getTargetValue(range, strictness)` (`playlistService.ts` 165-171); the
one `Math.random()` drawn inside the call is passed in as `rand`. -/
def getTargetValue (range : FeatureRange) (strictness rand : ℚ) : ℚ :=
  let midpoint := (range.min + range.max) / 2
  let variance := (range.max - range.min) * (1 - strictness) * (1/2)
  max range.min (min range.max (midpoint + (rand - 1/2) * variance * 2))

/-- The body of `calculateTargetFeatures` after `strictness` has been
computed (`playlistService.ts` 157-162); `r1..r4` are the four
`Math.random()` draws, one per `getTargetValue` call, in field order. -/
def targetsWithStrictness (pf : AudioFeatureRanges) (strictness r1 r2 r3 r4 : ℚ) :
    TargetFeatureSet :=
  { energy := getTargetValue pf.energy strictness r1
    valence := getTargetValue pf.valence strictness r2
    danceability := getTargetValue pf.danceability strictness r3
    tempo := getTargetValue pf.tempo strictness r4 }

/-- Embedding of `calculateTargetFeatures(profileFeatures, confidence)`
(`playlistService.ts` 150-163): `strictness = Math.max(0.3, confidence)`. -/
def calculateTargetFeatures (pf : AudioFeatureRanges) (confidence r1 r2 r3 r4 : ℚ) :
    TargetFeatureSet :=
  targetsWithStrictness pf (max (3/10) confidence) r1 r2 r3 r4

theorem getTargetValue_mem (range : FeatureRange) (strictness rand : ℚ)
    (h : range.min ≤ range.max) :
    range.min ≤ getTargetValue range strictness rand ∧
      getTargetValue range strictness rand ≤ range.max := by
  unfold getTargetValue
  constructor
  · exact le_max_left _ _
  · exact max_le h (min_le_left _ _)

theorem getTargetValue_strict (range : FeatureRange) (rand : ℚ)
    (h : range.min ≤ range.max) :
    getTargetValue range 1 rand = (range.min + range.max) / 2 := by
  unfold getTargetValue
  have hmid₁ : range.min ≤ (range.min + range.max) / 2 := by linarith
  have hmid₂ : (range.min + range.max) / 2 ≤ range.max := by linarith
  simp only [sub_self, mul_zero, zero_mul, mul_one, one_mul, add_zero]
  rw [min_eq_right hmid₂, max_eq_right hmid₁]

/-- A track's audio-feature record as seen by `calculateTrackScore`: each of
the four consulted fields may be absent (`undefined` in JS; the other Spotify
feature fields are never read by the core). -/
structure AudioFeatureVec where
  energy : Option ℚ
  valence : Option ℚ
  danceability : Option ℚ
  tempo : Option ℚ
deriving DecidableEq

/-- The four feature names iterated over by `calculateTrackScore`. -/
inductive FeatName where
  | energy
  | valence
  | danceability
  | tempo
deriving DecidableEq

/-- Field access `vec[feature]`. -/
def AudioFeatureVec.get (v : AudioFeatureVec) : FeatName → Option ℚ
  | .energy => v.energy
  | .valence => v.valence
  | .danceability => v.danceability
  | .tempo => v.tempo

/-- Set one feature field to absent. -/
def AudioFeatureVec.clearFeat (v : AudioFeatureVec) : FeatName → AudioFeatureVec
  | .energy => { v with energy := none }
  | .valence => { v with valence := none }
  | .danceability => { v with danceability := none }
  | .tempo => { v with tempo := none }

/-- The target set always carries all four fields
(`calculateTargetFeatures` returns a full object). -/
def TargetFeatureSet.toVec (t : TargetFeatureSet) : AudioFeatureVec :=
  { energy := some t.energy
    valence := some t.valence
    danceability := some t.danceability
    tempo := some t.tempo }

/-- One iteration of the `for (const [feature, weight] of Object.entries(weights))`
loop of `calculateTrackScore` (`playlistService.ts` 217-235): when both the
actual and the target value are present, add `score * weight` to the running
total and `weight` to the running weight; otherwise leave the accumulator
unchanged.  `isTempo` selects the relative-difference branch. -/
def featContrib (isTempo : Bool) (a t : Option ℚ) (weight : ℚ) (acc : ℚ × ℚ) :
    ℚ × ℚ :=
  match a, t with
  | some av, some tv =>
      let diff := |av - tv|
      let s := if isTempo then max 0 (1 - diff / tv) else max 0 (1 - diff)
      (acc.1 + s * weight, acc.2 + weight)
  | _, _ => acc

/-- Embedding of `calculateTrackScore(actualFeatures, targetFeatures)`
(`playlistService.ts` 206-238).  The loop over the four weighted entries
(insertion order: energy 0.3, valence 0.3, danceability 0.2, tempo 0.2) is
unrolled; the final result is `totalScore / totalWeight` when some weight was
contributed, else 0. -/
def calculateTrackScore (actual target : AudioFeatureVec) : ℚ :=
  let acc0 := featContrib false actual.energy target.energy (3/10) (0, 0)
  let acc1 := featContrib false actual.valence target.valence (3/10) acc0
  let acc2 := featContrib false actual.danceability target.danceability (2/10) acc1
  let acc3 := featContrib true actual.tempo target.tempo (2/10) acc2
  if 0 < acc3.2 then acc3.1 / acc3.2 else 0

/-- Embedding of `SpotifyTrack` (only the fields the core reads; the remaining album/artist
metadata is carried opaquely by the external catalog). -/
structure SpotifyTrack where
  id : String
  name : String
  artists : List String
  durationMs : Nat
deriving DecidableEq

/-- The transient `{ track, score }` pairing built during ranking. -/
structure ScoredTrack where
  track : SpotifyTrack
  score : ℚ
deriving DecidableEq

/-- Embedding of `SpotifyService.getAudioFeatures` (`spotifyService.ts` 124-143) applied to
the API response body: the code returns
`response.data.audio_features.filter(features => features !== null)`,
i.e. it REMOVES the null entries from the batched response before returning. -/
def spotifyGetAudioFeatures (audio_features : List (Option AudioFeatureVec)) :
    List (Option AudioFeatureVec) :=
  audio_features.filter (fun f => f.isSome)

/-- The feature record the scoring loop reads for candidate index `i`:
`audioFeatures[index]` (`playlistService.ts` 189), where an out-of-range read
yields `undefined` and line 190 treats `undefined`/`null` alike (`!features`). -/
def featureAt (audioFeatures : List (Option AudioFeatureVec)) (i : Nat) :
    Option AudioFeatureVec :=
  (audioFeatures.get? i).join

/-- The `tracks.map((track, index) => ...)` scoring step
(`playlistService.ts` 188-194): a candidate whose consulted feature entry is
absent gets score 0, every other candidate gets `calculateTrackScore`. -/
def scoredTracks (tracks : List SpotifyTrack)
    (audioFeatures : List (Option AudioFeatureVec)) (target : TargetFeatureSet) :
    List ScoredTrack :=
  tracks.enum.map fun p =>
    match featureAt audioFeatures p.1 with
    | none => ⟨p.2, 0⟩
    | some features => ⟨p.2, calculateTrackScore features target.toVec⟩

/-- Insert a scored track into an already-sorted (descending) list, after
every element with a strictly greater score and before every element with a
score ≤ its own: combined with `sortByScoreDesc` this realises the JS stable
`sort((a, b) => b.score - a.score)` of `playlistService.ts` 198 (descending by
score, ties kept in first-seen order). -/
def insertByScore (x : ScoredTrack) : List ScoredTrack → List ScoredTrack
  | [] => [x]
  | y :: ys => if x.score < y.score then y :: insertByScore x ys else x :: y :: ys

/-- Stable descending-by-score sort (see `insertByScore`). -/
def sortByScoreDesc : List ScoredTrack → List ScoredTrack
  | [] => []
  | x :: xs => insertByScore x (sortByScoreDesc xs)

/-- The destructuring swap `[a[i], a[j]] = [a[j], a[i]]` of `shuffleArray`
(`playlistService.ts` 277) as a list operation; indices are always in range
when reached from `shuffleArray`. -/
def listSwap {α : Type} (l : List α) (i j : Nat) : List α :=
  match l.get? i, l.get? j with
  | some a, some b => (l.set i b).set j a
  | _, _ => l

/-- The Fisher-Yates loop of `shuffleArray` (`playlistService.ts` 275-278),
counting `i` down to 1; `rands i` is the `Math.random()` value drawn at loop
index `i`, and `j = Math.floor(rands i * (i + 1))`. -/
def fyAux {α : Type} (rands : Nat → ℚ) : Nat → List α → List α
  | 0, l => l
  | i + 1, l => fyAux rands i (listSwap l (i + 1) ⌊rands (i + 1) * ((i : ℚ) + 2)⌋₊)

/-- Embedding of `shuffleArray(array)` (`playlistService.ts` 273-280). -/
def shuffleArray {α : Type} (rands : Nat → ℚ) (l : List α) : List α :=
  fyAux rands (l.length - 1) l

/-- The typed error kinds of the playlist core.  `unknownMood` is the
`Unknown mood: ...` throw of `generatePlaylist` line 80; `noCandidates` is the
`No tracks found for the given mood` throw of `filterAndSelectTracks` line
180; `failedToGenerate` is the generic `Failed to generate playlist` rethrown
by the surrounding catch block (line 146). -/
inductive PlaylistError where
  | unknownMood
  | noCandidates
  | failedToGenerate
deriving DecidableEq

/-- One external-collaborator invocation (a `spotifyService` method call that
performs a network request), recorded in order of execution. -/
inductive ExtCall where
  | getAvailableGenres
  | getRecommendations (seedGenres : List String) (target : TargetFeatureSet)
      (limit : Nat)
  | getAudioFeatures (trackIds : List String)
  | createPlaylist (userId nm description : String) (isPublic : Bool)
  | addTracksToPlaylist (playlistId : String) (trackUris : List String)
  | searchTracks (query : String) (limit : Nat)

/-- The playlist object returned by the external `createPlaylist` call. -/
structure PlaylistHandle where
  id : String
  name : String
  description : String
  externalUrls : String

/-- The external music service, as pure response functions: what each network
call would return.  `audioFeaturesRaw` is the `audio_features` array of the
batched response (one entry, possibly null, per requested id);
`searchTracks` returns `none` when the request throws. -/
structure SpotifyOracle where
  availableGenres : List String
  recommendations : List String → TargetFeatureSet → Nat → List SpotifyTrack
  audioFeaturesRaw : List String → List (Option AudioFeatureVec)
  createPlaylist : String → String → String → Bool → PlaylistHandle
  searchTracks : String → Nat → Option (List SpotifyTrack)

/-- The genre-selection step of `generatePlaylist` (`playlistService.ts`
85-92): keep the profile genres present in the available list (profile
order), cap at 3, and fall back to `['pop']` when nothing survived. -/
def filteredGenres (profileGenres availableGenres : List String) : List String :=
  let fg := (profileGenres.filter fun g => availableGenres.contains g).take 3
  if fg.isEmpty then ["pop"] else fg

/-- The final `GeneratedPlaylist` payload. -/
structure GeneratedPlaylist where
  id : String
  name : String
  description : String
  tracks : List SpotifyTrack
  externalUrls : String

/-- Embedding of `filterAndSelectTracks(tracks, targetFeatures, accessToken, targetCount)`
(`playlistService.ts` 173-204), with the feature fetch supplied by the oracle
and the shuffle randomness by `rands`; the second component is the list of
external calls performed. -/
def filterAndSelectTracks (tracks : List SpotifyTrack)
    (targetFeatures : TargetFeatureSet) (oracle : SpotifyOracle)
    (targetCount : Nat) (rands : Nat → ℚ) :
    Except PlaylistError (List SpotifyTrack) × List ExtCall :=
  if tracks.isEmpty then (.error .noCandidates, [])
  else
    let trackIds := tracks.map (fun t => t.id)
    let audioFeatures := spotifyGetAudioFeatures (oracle.audioFeaturesRaw trackIds)
    let scored := scoredTracks tracks audioFeatures targetFeatures
    let selected := ((sortByScoreDesc scored).take targetCount).map
      (fun item => item.track)
    (.ok (shuffleArray rands selected), [.getAudioFeatures trackIds])

/-- The name-template table of `generatePlaylistName`
(`playlistService.ts` 241-250), with its `['Mixed Mood Music']` default. -/
def moodNames (key : String) : List String :=
  if key = "happy" then
    ["Sunshine Vibes", "Feel Good Hits", "Happy Hour", "Positivity Playlist",
     "Joyful Jams"]
  else if key = "sad" then
    ["Melancholy Moments", "Rainy Day Blues", "Heartbreak Hotel",
     "Emotional Journey", "Tears & Tunes"]
  else if key = "energetic" then
    ["Power Hour", "Adrenaline Rush", "High Energy Hits", "Pump It Up",
     "Electric Vibes"]
  else if key = "calm" then
    ["Peaceful Moments", "Zen Zone", "Tranquil Tunes", "Meditation Music",
     "Serenity Sounds"]
  else if key = "anxious" then
    ["Restless Mind", "Anxious Energy", "Introspective Indie",
     "Uncertain Times", "Tension & Release"]
  else if key = "nostalgic" then
    ["Memory Lane", "Throwback Therapy", "Vintage Vibes", "Golden Oldies",
     "Nostalgic Notes"]
  else ["Mixed Mood Music"]

/-- Embedding of `generatePlaylistName(moodAnalysis)` (`playlistService.ts` 240-254);
`rand` is the `Math.random()` draw and `dateStr` the current locale date. -/
def generatePlaylistName (analysis : MoodAnalysis) (rand : ℚ) (dateStr : String) :
    String :=
  let names := moodNames analysis.primaryEmotion
  let randomName := names.getD ⌊rand * (names.length : ℚ)⌋₊ ""
  randomName ++ " - " ++ dateStr

/-- The per-emotion descriptive sentence table of
`generatePlaylistDescription` (`playlistService.ts` 259-268). -/
def moodDescriptions (key : String) : String :=
  if key = "happy" then
    "Uplifting tracks to keep your spirits high and energy positive."
  else if key = "sad" then
    "Contemplative songs that understand and embrace your current emotional state."
  else if key = "energetic" then
    "High-energy tracks to fuel your motivation and drive."
  else if key = "calm" then
    "Soothing melodies to help you relax and find inner peace."
  else if key = "anxious" then
    "Music that acknowledges restlessness while providing comfort."
  else if key = "nostalgic" then
    "Songs that capture the bittersweet beauty of memories and past times."
  else "Curated tracks to match your current mood."

/-- Embedding of `generatePlaylistDescription(moodAnalysis)` (`playlistService.ts` 256-271). -/
def generatePlaylistDescription (analysis : MoodAnalysis) : String :=
  let quoted := analysis.rawText.take 100 ++
    (if 100 < analysis.rawText.length then "..." else "")
  let base := "Generated based on your mood: \"" ++ quoted ++ "\""
  let moodDesc := moodDescriptions analysis.primaryEmotion
  base ++ "\n\n" ++ moodDesc ++ "\n\nConfidence: " ++
    toString (round (analysis.confidence * 100)) ++ "%"

/-- The randomness consumed by one `generatePlaylist` run: the four
`getTargetValue` draws, the name-template draw, and the shuffle stream. -/
structure RandomSource where
  target1 : ℚ
  target2 : ℚ
  target3 : ℚ
  target4 : ℚ
  nameRand : ℚ
  shuffle : Nat → ℚ

/-- The body of the `try` block of
`generatePlaylist(moodAnalysis, accessToken, userId)`
(`playlistService.ts` 76-143), before the catch block replaces any thrown
error by the generic failure: profile lookup, genre selection, target
computation, recommendation fetch, track selection, playlist creation and
track adding, with every external call recorded in order. -/
def generatePlaylistCore (analysis : MoodAnalysis) (userId : String)
    (oracle : SpotifyOracle) (rnd : RandomSource) (dateStr : String) :
    Except PlaylistError GeneratedPlaylist × List ExtCall :=
  match moodProfiles analysis.primaryEmotion with
  | none => (.error .unknownMood, [])
  | some profile =>
      let availableGenres := oracle.availableGenres
      let fGenres := filteredGenres profile.genres availableGenres
      let targetFeatures := calculateTargetFeatures profile.audioFeatures
        analysis.confidence rnd.target1 rnd.target2 rnd.target3 rnd.target4
      let recommendedTracks := oracle.recommendations fGenres targetFeatures 30
      let callsBefore : List ExtCall :=
        [.getAvailableGenres, .getRecommendations fGenres targetFeatures 30]
      match filterAndSelectTracks recommendedTracks targetFeatures oracle 15
        rnd.shuffle with
      | (.error e, calls) => (.error e, callsBefore ++ calls)
      | (.ok selectedTracks, calls) =>
          let playlistName := generatePlaylistName analysis rnd.nameRand dateStr
          let playlistDescription := generatePlaylistDescription analysis
          let playlist := oracle.createPlaylist userId playlistName
            playlistDescription false
          let trackUris := selectedTracks.map
            (fun track => "spotify:track:" ++ track.id)
          (.ok { id := playlist.id, name := playlist.name,
                 description := playlist.description, tracks := selectedTracks,
                 externalUrls := playlist.externalUrls },
           callsBefore ++ calls ++
             [.createPlaylist userId playlistName playlistDescription false,
              .addTracksToPlaylist playlist.id trackUris])

/-- Embedding of `generatePlaylist` as seen by its caller: the catch block
(`playlistService.ts` 144-147) converts every thrown error into the generic
`Failed to generate playlist`. -/
def generatePlaylist (analysis : MoodAnalysis) (userId : String)
    (oracle : SpotifyOracle) (rnd : RandomSource) (dateStr : String) :
    Except PlaylistError GeneratedPlaylist × List ExtCall :=
  match generatePlaylistCore analysis userId oracle rnd dateStr with
  | (.error _, calls) => (.error .failedToGenerate, calls)
  | ok => ok

/-- The duplicate-removal filter of `searchByMoodKeywords`
(`playlistService.ts` 312-314): keep a track iff its index equals the first
index holding its id. -/
def uniqueTracks (l : List SpotifyTrack) : List SpotifyTrack :=
  (l.enum.filter fun p => l.findIdx (fun t => t.id == p.2.id) == p.1).map
    (fun p => p.2)

/-- The query loop of `searchByMoodKeywords` (`playlistService.ts` 298-309):
for each query, build the search string, invoke the external search, append
its tracks on success and skip on caught failure; returns the accumulated
tracks and the calls made. -/
def searchLoop (oracle : SpotifyOracle) :
    List String → List SpotifyTrack × List ExtCall
  | [] => ([], [])
  | q :: qs =>
      let queryStr := "genre:" ++ q ++ " OR " ++ q
      let rest := searchLoop oracle qs
      match oracle.searchTracks queryStr 10 with
      | some tracks => (tracks ++ rest.1, .searchTracks queryStr 10 :: rest.2)
      | none => (rest.1, .searchTracks queryStr 10 :: rest.2)

/-- Embedding of `searchByMoodKeywords(moodAnalysis, accessToken)`
(`playlistService.ts` 283-317): unknown moods return `[]` with no search
performed; known moods search the first 5 keyword/genre queries, deduplicate
by id and cap at 30 results.  The function itself never throws. -/
def searchByMoodKeywords (analysis : MoodAnalysis) (oracle : SpotifyOracle) :
    List SpotifyTrack × List ExtCall :=
  match moodProfiles analysis.primaryEmotion with
  | none => ([], [])
  | some profile =>
      let searchQueries :=
        profile.keywords ++ profile.genres ++ [analysis.primaryEmotion]
      let res := searchLoop oracle (searchQueries.take 5)
      ((uniqueTracks res.1).take 30, res.2)

theorem cons_set_perm {α : Type} (a b : α) :
    ∀ (xs : List α) (k : Nat), xs.get? k = some b →
      List.Perm (b :: xs.set k a) (a :: xs)
  | [], k, h => by simp at h
  | x :: xs, 0, h => by
      simp only [List.get?] at h
      have hx : x = b := by injection h
      show List.Perm (b :: a :: xs) (a :: x :: xs)
      rw [hx]
      exact List.Perm.swap a b xs
  | x :: xs, k + 1, h => by
      simp only [List.get?] at h
      have ih := cons_set_perm a b xs k h
      show List.Perm (b :: x :: xs.set k a) (a :: x :: xs)
      exact ((List.Perm.swap x b _).trans (List.Perm.cons x ih)).trans
        (List.Perm.swap a x xs)

theorem set_set_perm {α : Type} (a b : α) :
    ∀ (l : List α) (i j : Nat), l.get? i = some a → l.get? j = some b →
      List.Perm ((l.set i b).set j a) l
  | [], i, j, hi, hj => by simp at hi
  | x :: xs, 0, 0, hi, hj => by
      simp only [List.get?] at hi hj
      have hx : x = a := by injection hi
      show List.Perm (a :: xs) (x :: xs)
      rw [hx]
  | x :: xs, 0, j + 1, hi, hj => by
      simp only [List.get?] at hi hj
      have hx : x = a := by injection hi
      show List.Perm (b :: xs.set j a) (x :: xs)
      rw [hx]
      exact cons_set_perm a b xs j hj
  | x :: xs, i + 1, 0, hi, hj => by
      simp only [List.get?] at hi hj
      have hx : x = b := by injection hj
      show List.Perm (a :: xs.set i b) (x :: xs)
      rw [hx]
      exact cons_set_perm b a xs i hi
  | x :: xs, i + 1, j + 1, hi, hj => by
      simp only [List.get?] at hi hj
      have ih := set_set_perm a b xs i j hi hj
      show List.Perm (x :: (xs.set i b).set j a) (x :: xs)
      exact List.Perm.cons x ih

theorem listSwap_perm {α : Type} (l : List α) (i j : Nat) :
    List.Perm (listSwap l i j) l := by
  unfold listSwap
  cases hi : l.get? i with
  | none => exact List.Perm.refl l
  | some a =>
      cases hj : l.get? j with
      | none => exact List.Perm.refl l
      | some b => exact set_set_perm a b l i j hi hj

theorem fyAux_perm {α : Type} (rands : Nat → ℚ) :
    ∀ (i : Nat) (l : List α), List.Perm (fyAux rands i l) l
  | 0, l => List.Perm.refl l
  | i + 1, l =>
      (fyAux_perm rands i _).trans (listSwap_perm l (i + 1) _)

theorem shuffleArray_perm {α : Type} (rands : Nat → ℚ) (l : List α) :
    List.Perm (shuffleArray rands l) l :=
  fyAux_perm rands (l.length - 1) l

theorem insertByScore_perm (x : ScoredTrack) (l : List ScoredTrack) :
    List.Perm (insertByScore x l) (x :: l) := by
  induction l with
  | nil => exact List.Perm.refl _
  | cons y ys ih =>
      unfold insertByScore
      split
      · exact (List.Perm.cons y ih).trans (List.Perm.swap _ _ _)
      · exact List.Perm.refl _

theorem sortByScoreDesc_perm (l : List ScoredTrack) :
    List.Perm (sortByScoreDesc l) l := by
  induction l with
  | nil => exact List.Perm.refl _
  | cons x xs ih =>
      unfold sortByScoreDesc
      exact (insertByScore_perm x _).trans (List.Perm.cons x ih)

theorem insertByScore_pairwise (x : ScoredTrack) (l : List ScoredTrack)
    (h : l.Pairwise fun a b => b.score ≤ a.score) :
    (insertByScore x l).Pairwise fun a b => b.score ≤ a.score := by
  induction l with
  | nil => simp [insertByScore]
  | cons y ys ih =>
      rw [List.pairwise_cons] at h
      unfold insertByScore
      split
      · rename_i hlt
        rw [List.pairwise_cons]
        refine ⟨fun z hz => ?_, ih h.2⟩
        rcases List.mem_cons.mp ((insertByScore_perm x ys).mem_iff.mp hz) with
          hz | hz
        · subst hz; exact le_of_lt hlt
        · exact h.1 z hz
      · rename_i hge
        push_neg at hge
        rw [List.pairwise_cons]
        refine ⟨fun z hz => ?_, List.pairwise_cons.mpr h⟩
        rcases List.mem_cons.mp hz with hz | hz
        · subst hz; exact hge
        · exact le_trans (h.1 z hz) hge

theorem sortByScoreDesc_pairwise (l : List ScoredTrack) :
    (sortByScoreDesc l).Pairwise fun a b => b.score ≤ a.score := by
  induction l with
  | nil => simp [sortByScoreDesc]
  | cons x xs ih => exact insertByScore_pairwise x _ ih

theorem featContrib_none_left (isTempo : Bool) (t : Option ℚ) (w : ℚ)
    (acc : ℚ × ℚ) : featContrib isTempo none t w acc = acc := by
  cases t <;> rfl

theorem featContrib_none_right (isTempo : Bool) (a : Option ℚ) (w : ℚ)
    (acc : ℚ × ℚ) : featContrib isTempo a none w acc = acc := by
  cases a <;> rfl

theorem featContrib_bound (isTempo : Bool) (a t : Option ℚ) (w : ℚ)
    (hw : 0 ≤ w) (acc : ℚ × ℚ) (h1 : 0 ≤ acc.1) (h2 : acc.1 ≤ acc.2)
    (htempo : isTempo = true → ∀ av tv, a = some av → t = some tv → 0 < tv) :
    0 ≤ (featContrib isTempo a t w acc).1 ∧
      (featContrib isTempo a t w acc).1 ≤ (featContrib isTempo a t w acc).2 := by
  cases a with
  | none => rw [featContrib_none_left]; exact ⟨h1, h2⟩
  | some av =>
      cases t with
      | none => rw [featContrib_none_right]; exact ⟨h1, h2⟩
      | some tv =>
          have key : ∀ s : ℚ, 0 ≤ s → s ≤ 1 →
              0 ≤ acc.1 + s * w ∧ acc.1 + s * w ≤ acc.2 + w := by
            intro s hs0 hs1
            refine ⟨add_nonneg h1 (mul_nonneg hs0 hw), add_le_add h2 ?_⟩
            exact mul_le_of_le_one_left hw hs1
          cases isTempo with
          | false =>
              refine key (max 0 (1 - |av - tv|)) (le_max_left _ _)
                (max_le (by norm_num) ?_)
              have := abs_nonneg (av - tv)
              linarith
          | true =>
              have hv : 0 < tv := htempo rfl av tv rfl rfl
              refine key (max 0 (1 - |av - tv| / tv)) (le_max_left _ _)
                (max_le (by norm_num) ?_)
              have := div_nonneg (abs_nonneg (av - tv)) (le_of_lt hv)
              linarith

theorem calculateTrackScore_bound (actual target : AudioFeatureVec)
    (ht : actual.tempo = none ∨ target.tempo = none ∨
      ∃ tv, target.tempo = some tv ∧ 0 < tv) :
    0 ≤ calculateTrackScore actual target ∧
      calculateTrackScore actual target ≤ 1 := by
  have b0 := featContrib_bound false actual.energy target.energy (3/10)
    (by norm_num) (0, 0) le_rfl le_rfl (by simp)
  have b1 := featContrib_bound false actual.valence target.valence (3/10)
    (by norm_num) _ b0.1 b0.2 (by simp)
  have b2 := featContrib_bound false actual.danceability target.danceability
    (2/10) (by norm_num) _ b1.1 b1.2 (by simp)
  have harg : ∀ av tv : ℚ, actual.tempo = some av → target.tempo = some tv →
      0 < tv := by
    intro av tv ha htv
    rcases ht with h | h | ⟨tv', h, hpos⟩
    · rw [h] at ha; cases ha
    · rw [h] at htv; cases htv
    · rw [h] at htv
      have htv' : tv' = tv := by injection htv
      rw [← htv']; exact hpos
  have b3 := featContrib_bound true actual.tempo target.tempo (2/10)
    (by norm_num) _ b2.1 b2.2 (fun _ => harg)
  simp only [calculateTrackScore]
  split
  · rename_i hpos
    exact ⟨div_nonneg b3.1 (le_of_lt hpos), (div_le_one hpos).mpr b3.2⟩
  · exact ⟨le_rfl, zero_le_one⟩

theorem scoredTracks_length (tracks : List SpotifyTrack)
    (audioFeatures : List (Option AudioFeatureVec)) (target : TargetFeatureSet) :
    (scoredTracks tracks audioFeatures target).length = tracks.length := by
  simp [scoredTracks]

theorem scoredTracks_get?_of_none (tracks : List SpotifyTrack)
    (audioFeatures : List (Option AudioFeatureVec)) (target : TargetFeatureSet)
    (i : Nat) (track : SpotifyTrack) (h : tracks.get? i = some track)
    (hf : featureAt audioFeatures i = none) :
    (scoredTracks tracks audioFeatures target).get? i =
      some ⟨track, 0⟩ := by
  have h' : tracks[i]? = some track := by
    rw [← List.get?_eq_getElem?]; exact h
  simp [scoredTracks, List.get?_map, List.get?_enum, h', hf]

theorem sortByScoreDesc_zero_after (l : List ScoredTrack) (i j : Nat)
    (x y : ScoredTrack) (hx : (sortByScoreDesc l).get? i = some x)
    (hy : (sortByScoreDesc l).get? j = some y) (hx0 : x.score = 0)
    (hy0 : 0 < y.score) : j < i := by
  rcases List.get?_eq_some.mp hx with ⟨hi, hxg⟩
  rcases List.get?_eq_some.mp hy with ⟨hj, hyg⟩
  by_contra hcon
  push_neg at hcon
  rcases Nat.lt_or_ge i j with hij | hij
  · have := List.pairwise_iff_get.mp (sortByScoreDesc_pairwise l) ⟨i, hi⟩
      ⟨j, hj⟩ hij
    rw [hxg, hyg, hx0] at this
    exact absurd hy0 (not_lt.mpr this)
  · have : i = j := le_antisymm hcon hij
    subst this
    rw [hxg] at hyg
    rw [hyg] at hx0
    rw [hx0] at hy0
    exact lt_irrefl 0 hy0

theorem moodProfiles_mem (key : String) (p : MoodMusicProfile)
    (h : moodProfiles key = some p) :
    p = happyProfile ∨ p = sadProfile ∨ p = energeticProfile ∨
      p = calmProfile ∨ p = anxiousProfile ∨ p = nostalgicProfile := by
  unfold moodProfiles at h
  split_ifs at h <;>
    first
      | exact Option.noConfusion h
      | (rw [Option.some.injEq] at h; subst h; tauto)

theorem profile_feature_ranges (p : MoodMusicProfile)
    (hp : p = happyProfile ∨ p = sadProfile ∨ p = energeticProfile ∨
      p = calmProfile ∨ p = anxiousProfile ∨ p = nostalgicProfile) :
    p.audioFeatures.energy.min ≤ p.audioFeatures.energy.max ∧
      p.audioFeatures.valence.min ≤ p.audioFeatures.valence.max ∧
      p.audioFeatures.danceability.min ≤ p.audioFeatures.danceability.max ∧
      p.audioFeatures.tempo.min ≤ p.audioFeatures.tempo.max := by
  rcases hp with rfl | rfl | rfl | rfl | rfl | rfl <;> refine ⟨?_, ?_, ?_, ?_⟩ <;>
    norm_num [happyProfile, sadProfile, energeticProfile, calmProfile,
      anxiousProfile, nostalgicProfile]

/-- Claim C3: for every one of the 6 mood profiles, every confidence in [0,1]
and every random draw, `calculateTargetFeatures` uses
`strictness = max(0.3, confidence)` and returns each of the four target
features within that feature's declared [min, max] profile range. -/
theorem claim3_targets_within_ranges (key : String) (p : MoodMusicProfile)
    (hp : moodProfiles key = some p) (confidence r1 r2 r3 r4 : ℚ)
    (hc0 : 0 ≤ confidence) (hc1 : confidence ≤ 1) :
    calculateTargetFeatures p.audioFeatures confidence r1 r2 r3 r4 =
        targetsWithStrictness p.audioFeatures (max (3/10) confidence)
          r1 r2 r3 r4 ∧
      (p.audioFeatures.energy.min ≤
          (calculateTargetFeatures p.audioFeatures confidence r1 r2 r3 r4).energy ∧
        (calculateTargetFeatures p.audioFeatures confidence r1 r2 r3 r4).energy ≤
          p.audioFeatures.energy.max) ∧
      (p.audioFeatures.valence.min ≤
          (calculateTargetFeatures p.audioFeatures confidence r1 r2 r3 r4).valence ∧
        (calculateTargetFeatures p.audioFeatures confidence r1 r2 r3 r4).valence ≤
          p.audioFeatures.valence.max) ∧
      (p.audioFeatures.danceability.min ≤
          (calculateTargetFeatures p.audioFeatures confidence
            r1 r2 r3 r4).danceability ∧
        (calculateTargetFeatures p.audioFeatures confidence
            r1 r2 r3 r4).danceability ≤
          p.audioFeatures.danceability.max) ∧
      (p.audioFeatures.tempo.min ≤
          (calculateTargetFeatures p.audioFeatures confidence r1 r2 r3 r4).tempo ∧
        (calculateTargetFeatures p.audioFeatures confidence r1 r2 r3 r4).tempo ≤
          p.audioFeatures.tempo.max) := by
  obtain ⟨hE, hV, hD, hT⟩ := profile_feature_ranges p (moodProfiles_mem key p hp)
  exact ⟨rfl, getTargetValue_mem _ _ _ hE, getTargetValue_mem _ _ _ hV,
    getTargetValue_mem _ _ _ hD, getTargetValue_mem _ _ _ hT⟩

/-- Witness for C3 at the `happy` profile with confidence 1/2. -/
theorem claim3_witness :
    moodProfiles "happy" = some happyProfile ∧ (0:ℚ) ≤ 1/2 ∧ (1/2:ℚ) ≤ 1 ∧
      6/10 ≤ (calculateTargetFeatures happyProfile.audioFeatures (1/2)
          0 0 0 0).energy ∧
      (calculateTargetFeatures happyProfile.audioFeatures (1/2)
          0 0 0 0).energy ≤ 1 :=
  ⟨rfl, by norm_num, by norm_num,
    (claim3_targets_within_ranges "happy" happyProfile rfl (1/2) 0 0 0 0
      (by norm_num) (by norm_num)).2.1.1,
    (claim3_targets_within_ranges "happy" happyProfile rfl (1/2) 0 0 0 0
      (by norm_num) (by norm_num)).2.1.2⟩

/-- Claim C4: for confidence 1.0 (strictness 1.0) the variance is 0 and every
target feature equals the exact midpoint of its profile range, for every
value of the random source. -/
theorem claim4_midpoint_deterministic (key : String) (p : MoodMusicProfile)
    (hp : moodProfiles key = some p) (r1 r2 r3 r4 : ℚ) :
    calculateTargetFeatures p.audioFeatures 1 r1 r2 r3 r4 =
      { energy := (p.audioFeatures.energy.min + p.audioFeatures.energy.max) / 2
        valence := (p.audioFeatures.valence.min + p.audioFeatures.valence.max) / 2
        danceability := (p.audioFeatures.danceability.min +
          p.audioFeatures.danceability.max) / 2
        tempo := (p.audioFeatures.tempo.min + p.audioFeatures.tempo.max) / 2 } := by
  obtain ⟨hE, hV, hD, hT⟩ := profile_feature_ranges p (moodProfiles_mem key p hp)
  have hs : max (3/10 : ℚ) 1 = 1 := max_eq_right (by norm_num)
  unfold calculateTargetFeatures targetsWithStrictness
  rw [hs, getTargetValue_strict _ r1 hE, getTargetValue_strict _ r2 hV,
    getTargetValue_strict _ r3 hD, getTargetValue_strict _ r4 hT]

/-- Witness for C4 at the `sad` profile with two different random draws. -/
theorem claim4_witness :
    moodProfiles "sad" = some sadProfile ∧
      calculateTargetFeatures sadProfile.audioFeatures 1 (9/10) 0 (1/3) 1 =
        { energy := (sadProfile.audioFeatures.energy.min +
            sadProfile.audioFeatures.energy.max) / 2
          valence := (sadProfile.audioFeatures.valence.min +
            sadProfile.audioFeatures.valence.max) / 2
          danceability := (sadProfile.audioFeatures.danceability.min +
            sadProfile.audioFeatures.danceability.max) / 2
          tempo := (sadProfile.audioFeatures.tempo.min +
            sadProfile.audioFeatures.tempo.max) / 2 } ∧
      calculateTargetFeatures sadProfile.audioFeatures 1 0 (1/2) 0 (1/7) =
        calculateTargetFeatures sadProfile.audioFeatures 1 (9/10) 0 (1/3) 1 :=
  ⟨rfl, claim4_midpoint_deterministic "sad" sadProfile rfl (9/10) 0 (1/3) 1,
    (claim4_midpoint_deterministic "sad" sadProfile rfl 0 (1/2) 0 (1/7)).trans
      (claim4_midpoint_deterministic "sad" sadProfile rfl (9/10) 0 (1/3) 1).symm⟩

/-- Claim C6: on the empty candidate list, track selection fails with the
no-candidates error and performs no external call at all (in particular the
audio-feature fetch is never invoked). -/
theorem claim6_empty_candidates (target : TargetFeatureSet)
    (oracle : SpotifyOracle) (targetCount : Nat) (rands : Nat → ℚ) :
    filterAndSelectTracks [] target oracle targetCount rands =
      (.error .noCandidates, []) := rfl

/-- Claim C7: for a primary emotion outside the 6 known categories,
`generatePlaylist` fails (internally with the unknown-mood error, surfaced by
the catch block as the generic failure) and performs zero external calls. -/
theorem claim7_unknown_mood (analysis : MoodAnalysis) (userId : String)
    (oracle : SpotifyOracle) (rnd : RandomSource) (dateStr : String)
    (h : moodProfiles analysis.primaryEmotion = none) :
    generatePlaylistCore analysis userId oracle rnd dateStr =
        (.error .unknownMood, []) ∧
      generatePlaylist analysis userId oracle rnd dateStr =
        (.error .failedToGenerate, []) := by
  have h1 : generatePlaylistCore analysis userId oracle rnd dateStr =
      (.error .unknownMood, []) := by
    unfold generatePlaylistCore
    rw [h]
  refine ⟨h1, ?_⟩
  unfold generatePlaylist
  rw [h1]

/-- An arbitrary concrete external-service behaviour, used to instantiate
oracle-quantified theorems at a concrete input. -/
def sampleOracle : SpotifyOracle :=
  { availableGenres := []
    recommendations := fun _ _ _ => []
    audioFeaturesRaw := fun _ => []
    createPlaylist := fun _ _ _ _ => ⟨"", "", "", ""⟩
    searchTracks := fun _ _ => none }

/-- A concrete randomness assignment for witnesses. -/
def sampleRandom : RandomSource :=
  { target1 := 0, target2 := 0, target3 := 0, target4 := 0, nameRand := 0
    shuffle := fun _ => 0 }

/-- Witness for C7 with `primaryEmotion = "furious"`. -/
theorem claim7_witness :
    moodProfiles "furious" = none ∧
      generatePlaylistCore ⟨"furious", 0, 0, 0, 0, 0, 0, 1/2, "so angry"⟩
          "user1" sampleOracle sampleRandom "1/1/2026" =
        (.error .unknownMood, []) ∧
      generatePlaylist ⟨"furious", 0, 0, 0, 0, 0, 0, 1/2, "so angry"⟩
          "user1" sampleOracle sampleRandom "1/1/2026" =
        (.error .failedToGenerate, []) :=
  ⟨rfl,
    (claim7_unknown_mood ⟨"furious", 0, 0, 0, 0, 0, 0, 1/2, "so angry"⟩
      "user1" sampleOracle sampleRandom "1/1/2026" rfl).1,
    (claim7_unknown_mood ⟨"furious", 0, 0, 0, 0, 0, 0, 1/2, "so angry"⟩
      "user1" sampleOracle sampleRandom "1/1/2026" rfl).2⟩

/-- Claim C8: the genre-selection step returns the profile-order intersection
of the profile genres with the available genres, capped at 3, and falls back
to the single default genre `"pop"` exactly when the intersection is empty;
the result never exceeds 3 genres and the intersection is characterised as
membership in both lists, in profile order (sublist of the profile list). -/
theorem claim8_genre_selection (profileGenres availableGenres : List String) :
    ((profileGenres.filter fun g => availableGenres.contains g) = [] →
        filteredGenres profileGenres availableGenres = ["pop"]) ∧
      ((profileGenres.filter fun g => availableGenres.contains g) ≠ [] →
        filteredGenres profileGenres availableGenres =
          (profileGenres.filter fun g => availableGenres.contains g).take 3) ∧
      (filteredGenres profileGenres availableGenres).length ≤ 3 ∧
      (∀ g, g ∈ profileGenres.filter (fun g => availableGenres.contains g) ↔
        g ∈ profileGenres ∧ g ∈ availableGenres) ∧
      ((profileGenres.filter fun g => availableGenres.contains g).take 3).Sublist
        profileGenres := by
  have hempty : (profileGenres.filter fun g => availableGenres.contains g) = [] →
      filteredGenres profileGenres availableGenres = ["pop"] := by
    intro h
    show (if ((profileGenres.filter fun g =>
        availableGenres.contains g).take 3).isEmpty then ["pop"]
      else (profileGenres.filter fun g => availableGenres.contains g).take 3) =
        ["pop"]
    rw [h]
    rfl
  have hnon : (profileGenres.filter fun g => availableGenres.contains g) ≠ [] →
      filteredGenres profileGenres availableGenres =
        (profileGenres.filter fun g => availableGenres.contains g).take 3 := by
    intro h
    have htake : ((profileGenres.filter fun g =>
        availableGenres.contains g).take 3).isEmpty = false := by
      rw [List.isEmpty_eq_false]
      intro hnil
      rcases List.take_eq_nil_iff.mp hnil with h3 | hl
      · exact absurd h3 (by norm_num)
      · exact h hl
    show (if ((profileGenres.filter fun g =>
        availableGenres.contains g).take 3).isEmpty then ["pop"]
      else (profileGenres.filter fun g => availableGenres.contains g).take 3) = _
    rw [htake]
    simp
  refine ⟨hempty, hnon, ?_, ?_, ?_⟩
  · by_cases h : (profileGenres.filter fun g => availableGenres.contains g) = []
    · rw [hempty h]; norm_num
    · rw [hnon h, List.length_take]
      exact min_le_left _ _
  · intro g
    simp [List.mem_filter, List.elem_iff]
  · exact (List.take_sublist _ _).trans (List.filter_sublist _)

/-- Witness for C8: a non-empty intersection is returned in profile order. -/
theorem claim8_witness :
    (["pop", "dance"].filter fun g => (["dance"] : List String).contains g) ≠
        [] ∧
      filteredGenres ["pop", "dance"] ["dance"] =
        (["pop", "dance"].filter fun g =>
          (["dance"] : List String).contains g).take 3 :=
  ⟨by decide, (claim8_genre_selection ["pop", "dance"] ["dance"]).2.1 (by decide)⟩

/-- Claim C10: for a primary emotion outside the 6 known categories,
`searchByMoodKeywords` returns the empty list, raises nothing, and performs
no external search call — unlike `generatePlaylist`, whose core fails with
the unknown-mood error on the same analysis. -/
theorem claim10_unknown_mood_search (analysis : MoodAnalysis) (userId : String)
    (oracle : SpotifyOracle) (rnd : RandomSource) (dateStr : String)
    (h : moodProfiles analysis.primaryEmotion = none) :
    searchByMoodKeywords analysis oracle = ([], []) ∧
      generatePlaylistCore analysis userId oracle rnd dateStr =
        (.error .unknownMood, []) := by
  constructor
  · unfold searchByMoodKeywords
    rw [h]
  · unfold generatePlaylistCore
    rw [h]

/-- Witness for C10 with `primaryEmotion = "bored"`. -/
theorem claim10_witness :
    moodProfiles "bored" = none ∧
      searchByMoodKeywords ⟨"bored", 0, 0, 0, 0, 0, 0, 3/4, "meh"⟩
          sampleOracle = ([], []) ∧
      generatePlaylistCore ⟨"bored", 0, 0, 0, 0, 0, 0, 3/4, "meh"⟩ "user2"
          sampleOracle sampleRandom "2/2/2026" = (.error .unknownMood, []) :=
  ⟨rfl,
    (claim10_unknown_mood_search ⟨"bored", 0, 0, 0, 0, 0, 0, 3/4, "meh"⟩
      "user2" sampleOracle sampleRandom "2/2/2026" rfl).1,
    (claim10_unknown_mood_search ⟨"bored", 0, 0, 0, 0, 0, 0, 3/4, "meh"⟩
      "user2" sampleOracle sampleRandom "2/2/2026" rfl).2⟩

/-- Claim C5 (amended): the track scorer gives score exactly 1 when actual
equals target on all four features (target tempo nonzero); a feature missing
on either side is excluded from both the weighted numerator and the
weight-sum denominator (the score is as if the feature did not exist at all);
if all four features are missing the score is 0; and the result lies in
[0, 1] whenever the tempo feature is missing from either side or the target
tempo is positive. -/
theorem claim5_scorer_amended :
    (∀ e v d tp : ℚ, tp ≠ 0 →
        calculateTrackScore ⟨some e, some v, some d, some tp⟩
          ⟨some e, some v, some d, some tp⟩ = 1) ∧
      (∀ (actual target : AudioFeatureVec) (f : FeatName),
        actual.get f = none ∨ target.get f = none →
        calculateTrackScore actual target =
          calculateTrackScore (actual.clearFeat f) (target.clearFeat f)) ∧
      (∀ actual target : AudioFeatureVec,
        (∀ f : FeatName, actual.get f = none ∨ target.get f = none) →
        calculateTrackScore actual target = 0) ∧
      (∀ actual target : AudioFeatureVec,
        (actual.tempo = none ∨ target.tempo = none ∨
          ∃ tv, target.tempo = some tv ∧ 0 < tv) →
        0 ≤ calculateTrackScore actual target ∧
          calculateTrackScore actual target ≤ 1) := by
  refine ⟨?_, ?_, ?_, fun a t ht => calculateTrackScore_bound a t ht⟩
  · intro e v d tp htp
    simp only [calculateTrackScore, featContrib, sub_self, abs_zero, zero_div]
    norm_num
  · intro actual target f hf
    obtain ⟨ae, av, ad, at'⟩ := actual
    obtain ⟨te, tv, td, tt⟩ := target
    cases f <;> simp only [AudioFeatureVec.get] at hf <;>
      rcases hf with hf | hf <;> subst hf <;>
      simp [calculateTrackScore, AudioFeatureVec.clearFeat,
        featContrib_none_left, featContrib_none_right]
  · intro actual target h
    have h1 := h .energy
    have h2 := h .valence
    have h3 := h .danceability
    have h4 := h .tempo
    simp only [AudioFeatureVec.get] at h1 h2 h3 h4
    rcases h1 with h1 | h1 <;> rcases h2 with h2 | h2 <;>
      rcases h3 with h3 | h3 <;> rcases h4 with h4 | h4 <;>
      simp [calculateTrackScore, h1, h2, h3, h4,
        featContrib_none_left, featContrib_none_right]

/-- Counterexample for C5 as stated: with a negative target tempo the score
escapes [0, 1] (actual tempo 1, target tempo -1 gives score 3). -/
theorem claim5_counterexample :
    calculateTrackScore ⟨none, none, none, some 1⟩
        ⟨none, none, none, some (-1)⟩ = 3 ∧
      ¬(calculateTrackScore ⟨none, none, none, some 1⟩
          ⟨none, none, none, some (-1)⟩ ≤ 1) := by
  have h : calculateTrackScore ⟨none, none, none, some 1⟩
      ⟨none, none, none, some (-1)⟩ = 3 := by
    simp only [calculateTrackScore, featContrib_none_left,
      featContrib_none_right, featContrib]
    norm_num
  exact ⟨h, by rw [h]; norm_num⟩

/-- Witness for C5: the equal-features case at tempo 2, and the [0, 1] bound
at a positive target tempo. -/
theorem claim5_witness :
    ((2:ℚ) ≠ 0 ∧
        calculateTrackScore ⟨some (1/2), some (1/2), some (1/2), some 2⟩
          ⟨some (1/2), some (1/2), some (1/2), some 2⟩ = 1) ∧
      ((0:ℚ) < 3 ∧
        0 ≤ calculateTrackScore ⟨some 1, none, none, some 5⟩
            ⟨some 0, none, none, some 3⟩ ∧
          calculateTrackScore ⟨some 1, none, none, some 5⟩
            ⟨some 0, none, none, some 3⟩ ≤ 1) :=
  ⟨⟨by norm_num,
      claim5_scorer_amended.1 (1/2) (1/2) (1/2) 2 (by norm_num)⟩,
    ⟨by norm_num,
      (claim5_scorer_amended.2.2.2 ⟨some 1, none, none, some 5⟩
        ⟨some 0, none, none, some 3⟩
        (Or.inr (Or.inr ⟨3, rfl, by norm_num⟩))).1,
      (claim5_scorer_amended.2.2.2 ⟨some 1, none, none, some 5⟩
        ⟨some 0, none, none, some 3⟩
        (Or.inr (Or.inr ⟨3, rfl, by norm_num⟩))).2⟩⟩

/-- Claim C2: for every candidate list and every feature-result list consumed
by the scoring stage, a candidate whose feature entry is absent scores
exactly 0, the scored pool has exactly one entry per candidate (before and
after sorting — nothing is dropped), and in the sorted ranking every
zero-score entry is placed after every entry with positive score. -/
theorem claim2_missing_features (tracks : List SpotifyTrack)
    (audioFeatures : List (Option AudioFeatureVec)) (target : TargetFeatureSet) :
    (scoredTracks tracks audioFeatures target).length = tracks.length ∧
      (sortByScoreDesc (scoredTracks tracks audioFeatures target)).length =
        tracks.length ∧
      (∀ (i : Nat) (track : SpotifyTrack), tracks.get? i = some track →
        featureAt audioFeatures i = none →
        (scoredTracks tracks audioFeatures target).get? i = some ⟨track, 0⟩) ∧
      (∀ (i j : Nat) (x y : ScoredTrack),
        (sortByScoreDesc (scoredTracks tracks audioFeatures target)).get? i =
          some x →
        (sortByScoreDesc (scoredTracks tracks audioFeatures target)).get? j =
          some y →
        x.score = 0 → 0 < y.score → j < i) := by
  refine ⟨scoredTracks_length tracks audioFeatures target, ?_,
    fun i track h hf =>
      scoredTracks_get?_of_none tracks audioFeatures target i track h hf,
    fun i j x y hx hy hx0 hy0 =>
      sortByScoreDesc_zero_after _ i j x y hx hy hx0 hy0⟩
  rw [(sortByScoreDesc_perm _).length_eq, scoredTracks_length]

/-- Witness for C2: in a 2-candidate pool whose second feature entry is
absent, the second candidate is scored 0 and kept. -/
theorem claim2_witness :
    ([⟨"a", "A", [], 0⟩, ⟨"b", "B", [], 0⟩] : List SpotifyTrack).get? 1 =
        some ⟨"b", "B", [], 0⟩ ∧
      featureAt [some ⟨some 1, some 1, some 1, some 1⟩, none] 1 = none ∧
      (scoredTracks [⟨"a", "A", [], 0⟩, ⟨"b", "B", [], 0⟩]
          [some ⟨some 1, some 1, some 1, some 1⟩, none] ⟨1, 1, 1, 1⟩).get? 1 =
        some ⟨⟨"b", "B", [], 0⟩, 0⟩ ∧
      (scoredTracks [⟨"a", "A", [], 0⟩, ⟨"b", "B", [], 0⟩]
          [some ⟨some 1, some 1, some 1, some 1⟩, none] ⟨1, 1, 1, 1⟩).length =
        2 :=
  ⟨rfl, rfl,
    (claim2_missing_features _ _ _).2.2.1 1 ⟨"b", "B", [], 0⟩ rfl rfl,
    (claim2_missing_features [⟨"a", "A", [], 0⟩, ⟨"b", "B", [], 0⟩]
      [some ⟨some 1, some 1, some 1, some 1⟩, none] ⟨1, 1, 1, 1⟩).1⟩

/-- Claim C9: on a non-empty candidate list, for every random stream,
selection succeeds and returns a permutation of the first `targetCount`
entries of the stable descending-by-score ranking of the scored candidates;
its length is `min targetCount (number of candidates)` — ranking fixes
membership, the shuffle only reorders. -/
theorem claim9_membership_by_ranking (tracks : List SpotifyTrack)
    (target : TargetFeatureSet) (oracle : SpotifyOracle) (targetCount : Nat)
    (rands : Nat → ℚ) (hne : tracks ≠ []) :
    ∃ selected,
      (filterAndSelectTracks tracks target oracle targetCount rands).1 =
          .ok selected ∧
        selected.Perm
          (((sortByScoreDesc (scoredTracks tracks
              (spotifyGetAudioFeatures (oracle.audioFeaturesRaw
                (tracks.map fun t => t.id))) target)).take targetCount).map
            fun item => item.track) ∧
        selected.length = min targetCount tracks.length := by
  have hne' : tracks.isEmpty = false := by
    rw [List.isEmpty_eq_false]
    exact hne
  simp only [filterAndSelectTracks, hne', Bool.false_eq_true, if_false]
  refine ⟨_, rfl, shuffleArray_perm _ _, ?_⟩
  rw [(shuffleArray_perm _ _).length_eq, List.length_map, List.length_take,
    (sortByScoreDesc_perm _).length_eq, scoredTracks_length]

/-- Witness for C9 on a singleton candidate list. -/
theorem claim9_witness :
    ([(⟨"a", "A", [], 60⟩ : SpotifyTrack)] ≠ []) ∧
      ∃ selected,
        (filterAndSelectTracks [⟨"a", "A", [], 60⟩] ⟨1/2, 1/2, 1/2, 120⟩
            sampleOracle 5 (fun _ => 0)).1 = .ok selected ∧
          selected.Perm
            (((sortByScoreDesc (scoredTracks [⟨"a", "A", [], 60⟩]
                (spotifyGetAudioFeatures (sampleOracle.audioFeaturesRaw
                  (([⟨"a", "A", [], 60⟩] : List SpotifyTrack).map
                    fun t => t.id)))
                ⟨1/2, 1/2, 1/2, 120⟩)).take 5).map fun item => item.track) ∧
          selected.length = min 5 [(⟨"a", "A", [], 60⟩ : SpotifyTrack)].length :=
  ⟨List.cons_ne_nil _ _,
    claim9_membership_by_ranking [⟨"a", "A", [], 60⟩] ⟨1/2, 1/2, 1/2, 120⟩
      sampleOracle 5 (fun _ => 0) (List.cons_ne_nil _ _)⟩

/-- Claim C1 (refuted by the code): `getAudioFeatures` strips the null
entries out of the batched response, so the list consumed by the scorer is
NOT positionally aligned with the candidates.  With candidates `[t0, t1]`
and raw response `[null, f1]` (t0's features missing, f1 belonging to t1),
the scorer reads `f1` — t1's record — at candidate index 0, and scores t0
with it (here score 1), while t1 falls off the end and scores 0. -/
theorem claim1_misalignment_eval :
    featureAt [none, some ⟨some 1, some 1, some 1, some 120⟩] 0 = none ∧
      featureAt (spotifyGetAudioFeatures
          [none, some ⟨some 1, some 1, some 1, some 120⟩]) 0 =
        some ⟨some 1, some 1, some 1, some 120⟩ ∧
      (scoredTracks [⟨"t0", "T0", [], 0⟩, ⟨"t1", "T1", [], 0⟩]
          (spotifyGetAudioFeatures
            [none, some ⟨some 1, some 1, some 1, some 120⟩])
          ⟨1, 1, 1, 120⟩).get? 0 = some ⟨⟨"t0", "T0", [], 0⟩, 1⟩ ∧
      (scoredTracks [⟨"t0", "T0", [], 0⟩, ⟨"t1", "T1", [], 0⟩]
          (spotifyGetAudioFeatures
            [none, some ⟨some 1, some 1, some 1, some 120⟩])
          ⟨1, 1, 1, 120⟩).get? 1 = some ⟨⟨"t1", "T1", [], 0⟩, 0⟩ := by
  refine ⟨rfl, rfl, ?_, ?_⟩
  · have hscore : calculateTrackScore ⟨some 1, some 1, some 1, some 120⟩
        (TargetFeatureSet.toVec ⟨1, 1, 1, 120⟩) = 1 := by
      simp only [TargetFeatureSet.toVec, calculateTrackScore, featContrib,
        sub_self, abs_zero, zero_div]
      norm_num
    simp [scoredTracks, List.get?_map, List.get?_enum, featureAt,
      spotifyGetAudioFeatures, hscore]
  · simp [scoredTracks, List.get?_map, List.get?_enum, featureAt,
      spotifyGetAudioFeatures]
